import Mathlib

/-!
Shallow embedding of the core of the JobApplicationTracker repository:
the season/job data model (`job_tracker/models`), the validation helpers
(`job_tracker/utils/validation.py`), the repositories
(`job_tracker/database/repository.py`, `user_repository.py`), the service
layer (`job_tracker/services/job_tracker_service.py`) and the AuthManager
(`auth_utils.py`).

Conventions of the embedding:
* SQLite tables are lists of row structures held in an explicit state value;
  `INSERT`/`UPDATE` statements become functions from state to state, and the
  value `execute_command` returns (`lastrowid` for INSERT, `rowcount`
  otherwise) is returned alongside.
* `datetime.now()` is passed in explicitly wherever the Python code calls it.
* `datetime` itself is external standard-library code; it is modelled by its
  serialization contract: a value is identified with its ISO string, so
  `fromisoformat (isoformat d) = d`.  Real `isoformat` output is never the
  empty string; the empty string is only relevant because Python truthiness
  tests (`if data.get("x")`) treat `""` like `None`.
* Python `TypeError`s raised by calls whose positional-argument count does
  not match the callee (the service passes `user_id` to repository methods
  that do not accept one) are modelled explicitly as `PyError.typeError`
  raised before the callee body runs, exactly as CPython binds arguments
  before executing a function body.
-/

namespace JobTrackerRepo

/-- Model of Python `datetime`: identified with its ISO-8601 rendering. -/
structure PyDateTime where
  iso : String
deriving DecidableEq, Repr

/-- Python `datetime.isoformat()`. -/
def PyDateTime.isoformat (d : PyDateTime) : String := d.iso

/-- Python `datetime.fromisoformat`, modelled on the strings `isoformat` produces. -/
def PyDateTime.fromisoformat (s : String) : PyDateTime := ⟨s⟩

/-- Python exceptions that escape a modelled call. -/
inductive PyError where
  | typeError (msg : String)
deriving DecidableEq, Repr

/-! ### Python string primitives

Modelled on the character list underlying a `String` (Lean's own
`String.trim`, `toLower`, ... are defined by well-founded recursion on byte
positions, which the kernel will not evaluate; the list versions below are
extensionally the same on the ASCII data this code handles). -/

/-- Python `str.strip()` (ASCII whitespace). -/
def pyStrip (s : String) : String :=
  ⟨((s.data.dropWhile Char.isWhitespace).reverse.dropWhile
      Char.isWhitespace).reverse⟩

/-- Python `str.lower()` (ASCII case folding, as in the data handled). -/
def pyLower (s : String) : String :=
  ⟨s.data.map Char.toLower⟩

/-- Python truthiness of a string: `not s` holds exactly when empty. -/
def pyStrEmpty (s : String) : Bool :=
  s.data.isEmpty

/-- Splitting a character list at a separator (Python `str.split(sep)`):
always returns at least one chunk. -/
def splitOnChar (c : Char) : List Char → List (List Char)
  | [] => [[]]
  | x :: xs =>
    match splitOnChar c xs with
    | [] => if x = c then [[], [x]] else [[x]]  -- unreachable: never empty
    | h :: t => if x = c then [] :: h :: t else (x :: h) :: t

/-! ## `job_tracker/models/enums.py` -/

/-- Python `class JobStatus(Enum)` from `models/enums.py`. -/
inductive JobStatus where
  | APPLIED
  | PHONE_SCREEN
  | TECHNICAL_INTERVIEW
  | ONSITE_INTERVIEW
  | FINAL_INTERVIEW
  | OFFER
  | REJECTED
  | WITHDRAWN
  | ON_HOLD
deriving DecidableEq, Repr

/-- The `.value` of each enum member. -/
def JobStatus.value : JobStatus → String
  | .APPLIED => "Applied"
  | .PHONE_SCREEN => "Phone Screen"
  | .TECHNICAL_INTERVIEW => "Technical Interview"
  | .ONSITE_INTERVIEW => "Onsite Interview"
  | .FINAL_INTERVIEW => "Final Interview"
  | .OFFER => "Offer"
  | .REJECTED => "Rejected"
  | .WITHDRAWN => "Withdrawn"
  | .ON_HOLD => "On Hold"

/-- Iteration order of `for status in cls` (declaration order). -/
def JobStatus.members : List JobStatus :=
  [.APPLIED, .PHONE_SCREEN, .TECHNICAL_INTERVIEW, .ONSITE_INTERVIEW,
   .FINAL_INTERVIEW, .OFFER, .REJECTED, .WITHDRAWN, .ON_HOLD]

/-- Method `JobStatus.from_string`: first member whose value equals the input,
`ValueError` otherwise (modelled as `Except.error`). -/
def JobStatus.from_string (s : String) : Except String JobStatus :=
  match JobStatus.members.find? (fun st => st.value == s) with
  | some st => .ok st
  | none => .error ("Invalid job status: " ++ s)

/-! ## `job_tracker/utils/validation.py` -/

/-- Function `validate_input(value, required, min_length, max_length)`.
Returns `(is_valid, error_message)`. -/
def validate_input (value : String) (required : Bool) (minLength : Nat)
    (maxLength : Option Nat) : Bool × String :=
  if pyStrEmpty value || pyStrEmpty (pyStrip value) then
    if required then (false, "This field is required") else (true, "")
  else
    let v := pyStrip value
    if v.length < minLength then
      (false, "Minimum length is " ++ toString minLength ++ " characters")
    else
      match maxLength with
      | some m =>
        -- `if max_length and len(value) > max_length` (0 would be falsy;
        -- callers only pass positive bounds or None)
        if m ≠ 0 && v.length > m then
          (false, "Maximum length is " ++ toString m ++ " characters")
        else (true, "")
      | none => (true, "")

/-- Function `validate_season_name`: `validate_input` with 3..100, then a check that
the (unstripped) name avoids the characters `< > " '`. -/
def validate_season_name (name : String) : Bool × String :=
  let r := validate_input name true 3 (some 100)
  if !r.1 then r
  else if name.data.any (fun c => c ∈ ['<', '>', '"', '\'']) then
    (false, "Season name cannot contain special characters: < > \" \x27")
  else (true, "")

/-- Function `validate_company_name`. -/
def validate_company_name (name : String) : Bool × String :=
  validate_input name true 2 (some 200)

/-- Function `validate_role`. -/
def validate_role (role : String) : Bool × String :=
  validate_input role true 2 (some 200)

/-! ## `job_tracker/models/season.py` and `job_tracker/models/job.py`

The dataclass entities.  `Optional[...]` fields are `Option`s.  The
`__post_init__` defaulting (fill `start_date`/`created_at`/`applied_date`/
`last_updated` with `datetime.now()` when `None`) is captured by the `mk*`
constructor functions, which are the only way entity values arise in the
source (dataclass construction always runs `__post_init__`). -/

/-- The `Season` dataclass. -/
structure Season where
  id : Option Nat
  name : String
  start_date : Option PyDateTime
  end_date : Option PyDateTime
  is_active : Bool
  created_at : Option PyDateTime
deriving DecidableEq, Repr

/-- Construction `Season(...)` including `__post_init__` defaulting, with the
value of `datetime.now()` passed explicitly. -/
def mkSeason (id : Option Nat) (name : String) (start_date : Option PyDateTime)
    (end_date : Option PyDateTime) (is_active : Bool)
    (created_at : Option PyDateTime) (now : PyDateTime) : Season :=
  { id := id
    name := name
    start_date := some (start_date.getD now)
    end_date := end_date
    is_active := is_active
    created_at := some (created_at.getD now) }

/-- The plain mapping produced by `Season.to_dict` and consumed by
`Season.from_dict`.  A `none` field models an absent key; Python `None`
values and absent keys behave identically under `dict.get`, except that
`from_dict` only applies defaults on absence, which never coincides with a
`None` value in rows the source produces. -/
structure SeasonDict where
  id : Option Nat
  name : Option String
  start_date : Option String
  end_date : Option String
  is_active : Option Int
  created_at : Option String
deriving DecidableEq, Repr

/-- Method `Season.to_dict`. -/
def Season.to_dict (s : Season) : SeasonDict :=
  { id := s.id
    name := some s.name
    start_date := s.start_date.map PyDateTime.isoformat
    end_date := s.end_date.map PyDateTime.isoformat
    is_active := some (if s.is_active then 1 else 0)
    created_at := s.created_at.map PyDateTime.isoformat }

/-- Expression `datetime.fromisoformat(data["k"]) if data.get("k") else None`: the
truthiness test maps both a missing value and `""` to `None`. -/
def parseOptDate (v : Option String) : Option PyDateTime :=
  match v with
  | none => none
  | some s => if pyStrEmpty s then none else some (PyDateTime.fromisoformat s)

/-- Method `Season.from_dict` (a classmethod calling the dataclass constructor, so
`__post_init__` runs with the given `now`). -/
def Season.from_dict (data : SeasonDict) (now : PyDateTime) : Season :=
  mkSeason data.id (data.name.getD "") (parseOptDate data.start_date)
    (parseOptDate data.end_date)
    -- `bool(data.get("is_active", True))`
    (match data.is_active with | none => true | some n => n ≠ 0)
    (parseOptDate data.created_at) now

/-- The `Job` dataclass. -/
structure Job where
  id : Option Nat
  season_id : Option Nat
  role : String
  company_name : String
  company_website : Option String
  source : Option String
  current_status : JobStatus
  job_description : Option String
  resume_sent : Option String
  applied_date : Option PyDateTime
  last_updated : Option PyDateTime
  season_name : Option String
deriving DecidableEq, Repr

/-- Construction `Job(...)` including `__post_init__` defaulting. -/
def mkJob (id : Option Nat) (season_id : Option Nat) (role : String)
    (company_name : String) (company_website : Option String)
    (source : Option String) (current_status : JobStatus)
    (job_description : Option String) (resume_sent : Option String)
    (applied_date : Option PyDateTime) (last_updated : Option PyDateTime)
    (season_name : Option String) (now : PyDateTime) : Job :=
  { id := id
    season_id := season_id
    role := role
    company_name := company_name
    company_website := company_website
    source := source
    current_status := current_status
    job_description := job_description
    resume_sent := resume_sent
    applied_date := some (applied_date.getD now)
    last_updated := some (last_updated.getD now)
    season_name := season_name }

/-- The plain mapping produced by `Job.to_dict` / consumed by `Job.from_dict`
(also the shape of a row returned by the job queries, which select `j.*`
plus `s.name as season_name`). -/
structure JobDict where
  id : Option Nat
  season_id : Option Nat
  role : Option String
  company_name : Option String
  company_website : Option String
  source : Option String
  current_status : Option String
  job_description : Option String
  resume_sent : Option String
  applied_date : Option String
  last_updated : Option String
  season_name : Option String
deriving DecidableEq, Repr

/-- Method `Job.to_dict`. -/
def Job.to_dict (j : Job) : JobDict :=
  { id := j.id
    season_id := j.season_id
    role := some j.role
    company_name := some j.company_name
    company_website := j.company_website
    source := j.source
    current_status := some j.current_status.value
    job_description := j.job_description
    resume_sent := j.resume_sent
    applied_date := j.applied_date.map PyDateTime.isoformat
    last_updated := j.last_updated.map PyDateTime.isoformat
    season_name := j.season_name }

/-- Method `Job.from_dict`: `JobStatus.from_string(data.get("current_status",
"Applied"))` can raise `ValueError`, which propagates to every caller. -/
def Job.from_dict (data : JobDict) (now : PyDateTime) : Except String Job := do
  let st ← JobStatus.from_string (data.current_status.getD "Applied")
  .ok (mkJob data.id data.season_id (data.role.getD "")
    (data.company_name.getD "") data.company_website data.source st
    data.job_description data.resume_sent (parseOptDate data.applied_date)
    (parseOptDate data.last_updated) data.season_name now)

/-! ## Database state

`config.py` defines the `seasons` and `jobs` tables; `migrate_db.py` adds a
nullable `user_id` column to each (never written by any statement in
`repository.py`: the un-migrated INSERTs leave it NULL). -/

/-- A row of the `seasons` table. -/
structure SeasonRow where
  id : Nat
  user_id : Option Nat
  name : String
  start_date : String
  end_date : Option String
  is_active : Bool
  created_at : String
deriving DecidableEq, Repr

/-- A row of the `jobs` table. -/
structure JobRow where
  id : Nat
  season_id : Nat
  user_id : Option Nat
  role : String
  company_name : String
  company_website : Option String
  source : Option String
  current_status : String
  job_description : Option String
  resume_sent : Option String
  applied_date : String
  last_updated : String
deriving DecidableEq, Repr

/-- The seasons/jobs portion of the SQLite database, rows in insertion
(rowid) order, with the next AUTOINCREMENT values. -/
structure DBState where
  seasons : List SeasonRow
  jobs : List JobRow
  nextSeasonId : Nat
  nextJobId : Nat
deriving DecidableEq, Repr

/-- The row selected by `SELECT j.*, s.name as season_name FROM jobs j JOIN
seasons s ON j.season_id = s.id`, as the dict handed to `Job.from_dict`. -/
def jobRowToDict (j : JobRow) (season_name : String) : JobDict :=
  { id := some j.id
    season_id := some j.season_id
    role := some j.role
    company_name := some j.company_name
    company_website := j.company_website
    source := j.source
    current_status := some j.current_status
    job_description := j.job_description
    resume_sent := j.resume_sent
    applied_date := some j.applied_date
    last_updated := some j.last_updated
    season_name := some season_name }

/-- A `seasons` row as the dict handed to `Season.from_dict`. -/
def seasonRowToDict (s : SeasonRow) : SeasonDict :=
  { id := some s.id
    name := some s.name
    start_date := some s.start_date
    end_date := s.end_date
    is_active := some (if s.is_active then 1 else 0)
    created_at := some s.created_at }

/-! ## Ordering model for `ORDER BY <key> DESC`

The queries order by a single TEXT column descending and name no secondary
key, so the relative order of rows with equal keys is left to the store
(SQLite documents it as undefined).  We model the store's choice as an
arbitrary tie-breaking index `σ`: the result is sorted by the key
descending, and rows with equal keys appear in `σ`-ascending order. -/

/-- The TEXT comparison key of a column value: its character list, compared
lexicographically (ISO timestamps compare consistently with time order). -/
def textKey (s : String) : List Char := s.data

/-- Row `a` may precede row `b` in a `ORDER BY k DESC` result realised with
tie-break index `σ`. -/
def sqlDescRel (k : α → List Char) (σ : α → Nat) (a b : α) : Prop :=
  k b < k a ∨ (k b = k a ∧ σ a ≤ σ b)

instance sqlDescRelDecidable (k : α → List Char) (σ : α → Nat) :
    DecidableRel (sqlDescRel k σ) := fun a b =>
  inferInstanceAs (Decidable (k b < k a ∨ (k b = k a ∧ σ a ≤ σ b)))

instance sqlDescRelTotal (k : α → List Char) (σ : α → Nat) :
    IsTotal α (sqlDescRel k σ) := by
  constructor
  intro a b
  rcases lt_trichotomy (k a) (k b) with h | h | h
  · exact Or.inr (Or.inl h)
  · rcases Nat.le_total (σ a) (σ b) with hs | hs
    · exact Or.inl (Or.inr ⟨h.symm, hs⟩)
    · exact Or.inr (Or.inr ⟨h, hs⟩)
  · exact Or.inl (Or.inl h)

instance sqlDescRelTrans (k : α → List Char) (σ : α → Nat) :
    IsTrans α (sqlDescRel k σ) := by
  constructor
  rintro a b c (hab | ⟨hab, hab'⟩) (hbc | ⟨hbc, hbc'⟩)
  · exact Or.inl (lt_trans hbc hab)
  · exact Or.inl (hbc ▸ hab)
  · exact Or.inl (lt_of_lt_of_eq hbc hab)
  · exact Or.inr ⟨hbc.trans hab, le_trans hab' hbc'⟩

/-- Execution of `ORDER BY k DESC` under tie-break index `σ`. -/
def sqlSortDesc (k : α → List Char) (σ : α → Nat) (l : List α) : List α :=
  List.insertionSort (sqlDescRel k σ) l

/-! ## `SeasonRepository` (`database/repository.py`) -/

/-- Statement `UPDATE seasons SET is_active = 0, end_date = ? WHERE is_active = 1`. -/
def seasonsDeactivateAll (now : String) (rows : List SeasonRow) :
    List SeasonRow :=
  rows.map fun r =>
    if r.is_active then { r with is_active := false, end_date := some now }
    else r

/-- Method `SeasonRepository.create(season)`: deactivate every active season (all
owners — there is no owner filter), then insert the new season as active.
`now` is the timestamp written into the closed seasons' `end_date`;
`createdNow` is the `created_at` DEFAULT.  Returns the new row id. -/
def SeasonRepository.create (st : DBState) (name start_date : String)
    (now createdNow : String) : DBState × Nat :=
  let mid := seasonsDeactivateAll now st.seasons
  let row : SeasonRow :=
    { id := st.nextSeasonId
      user_id := none  -- the INSERT names only (name, start_date, is_active)
      name := name
      start_date := start_date
      end_date := none
      is_active := true
      created_at := createdNow }
  ({ st with seasons := mid ++ [row], nextSeasonId := st.nextSeasonId + 1 },
   st.nextSeasonId)

/-- The row scan behind `SELECT * FROM seasons WHERE is_active = 1` with
`fetchone`. -/
def SeasonRepository.get_active_row (st : DBState) : Option SeasonRow :=
  st.seasons.find? (·.is_active)

/-- Method `SeasonRepository.get_active()`: no owner parameter, no owner filter. -/
def SeasonRepository.get_active (st : DBState) (now : PyDateTime) :
    Option Season :=
  (SeasonRepository.get_active_row st).map
    fun r => Season.from_dict (seasonRowToDict r) now

/-- Row-level `SeasonRepository.get_all()`:
`SELECT * FROM seasons ORDER BY created_at DESC`. -/
def SeasonRepository.get_all_rows (σ : SeasonRow → Nat) (st : DBState) :
    List SeasonRow :=
  sqlSortDesc (fun r => textKey r.created_at) σ st.seasons

/-- Method `SeasonRepository.end_current()`: one UPDATE closing every active season;
returns the rowcount. -/
def SeasonRepository.end_current (st : DBState) (now : String) :
    DBState × Nat :=
  ({ st with seasons := seasonsDeactivateAll now st.seasons },
   (st.seasons.filter (·.is_active)).length)

/-! ## `JobRepository` (`database/repository.py`) -/

/-- Statement `INSERT INTO jobs (...)`: `user_id` is not among the inserted columns.
Returns the new row id (`lastrowid`). -/
def JobRepository.create (st : DBState) (season_id : Nat) (role company : String)
    (website source : Option String) (status : JobStatus)
    (descr resume : Option String) (applied last : Option String) :
    DBState × Nat :=
  let row : JobRow :=
    { id := st.nextJobId
      season_id := season_id
      user_id := none
      role := role
      company_name := company
      company_website := website
      source := source
      current_status := status.value
      job_description := descr
      resume_sent := resume
      -- the schema DEFAULTs never fire here: the INSERT always names the
      -- columns, passing NULL when the entity field is None
      applied_date := applied.getD ""
      last_updated := last.getD "" }
  ({ st with jobs := st.jobs ++ [row], nextJobId := st.nextJobId + 1 },
   st.nextJobId)

/-- The scan behind `SELECT j.*, s.name as season_name FROM jobs j JOIN
seasons s ON j.season_id = s.id WHERE j.id = ?` with `fetchone`: the first
job with this id whose season exists, paired with the season's name. -/
def jobGetByIdRow (st : DBState) (job_id : Nat) : Option (JobRow × String) :=
  match st.jobs.find? (fun j => j.id == job_id &&
      st.seasons.any (fun s => s.id == j.season_id)) with
  | none => none
  | some j =>
    match st.seasons.find? (fun s => s.id == j.season_id) with
    | some s => some (j, s.name)
    | none => none

/-- Method `JobRepository.get_by_id(job_id)`: no owner parameter, no owner filter;
`Job.from_dict` may raise on a malformed row. -/
def JobRepository.get_by_id (st : DBState) (job_id : Nat) (now : PyDateTime) :
    Except String (Option Job) :=
  match jobGetByIdRow st job_id with
  | none => .ok none
  | some (j, sname) => (Job.from_dict (jobRowToDict j sname) now).map some

/-- Rows matching `FROM jobs j JOIN seasons s ON j.season_id = s.id WHERE
j.season_id = ?`, in table order. -/
def jobsOfSeason (st : DBState) (season_id : Nat) : List JobRow :=
  st.jobs.filter (fun j => j.season_id == season_id &&
    st.seasons.any (fun s => s.id == j.season_id))

/-- Row-level `JobRepository.get_by_season(season_id)`:
`... WHERE j.season_id = ? ORDER BY j.applied_date DESC`. -/
def JobRepository.get_by_season_rows (σ : JobRow → Nat) (st : DBState)
    (season_id : Nat) : List JobRow :=
  sqlSortDesc (fun r => textKey r.applied_date) σ (jobsOfSeason st season_id)

/-- Python truthiness of the `season_id: int = None` parameter
(`if season_id:`): `None` and `0` are falsy. -/
def sidTruthy : Option Nat → Bool
  | none => false
  | some n => n ≠ 0

/-- Rows matching the `get_by_status` WHERE clause (status equality, the
JOIN, and the optional season filter), in table order. -/
def jobsOfStatus (st : DBState) (status : JobStatus)
    (season_id : Option Nat) : List JobRow :=
  st.jobs.filter (fun j => j.current_status == status.value &&
    st.seasons.any (fun s => s.id == j.season_id) &&
    (!sidTruthy season_id || j.season_id == season_id.getD 0))

/-- Row-level `JobRepository.get_by_status(status, season_id)`. -/
def JobRepository.get_by_status_rows (σ : JobRow → Nat) (st : DBState)
    (status : JobStatus) (season_id : Option Nat) : List JobRow :=
  sqlSortDesc (fun r => textKey r.applied_date) σ (jobsOfStatus st status season_id)

/-- Pattern `LIKE '%term%'` on a TEXT column: ASCII-case-insensitive substring. -/
def likeContains (term : String) (s : String) : Bool :=
  decide ((pyLower term).data <:+: (pyLower s).data)

/-- Rows matching the `search` WHERE clause: company name, role or source
contains the term; a NULL `source` never matches (`NULL LIKE` is not true
in SQL). -/
def jobsMatchingSearch (st : DBState) (term : String)
    (season_id : Option Nat) : List JobRow :=
  st.jobs.filter (fun j =>
    st.seasons.any (fun s => s.id == j.season_id) &&
    (!sidTruthy season_id || j.season_id == season_id.getD 0) &&
    (likeContains term j.company_name || likeContains term j.role ||
      (match j.source with | some src => likeContains term src
                           | none => false)))

/-- Row-level `JobRepository.search(search_term, season_id)`. -/
def JobRepository.search_rows (σ : JobRow → Nat) (st : DBState)
    (term : String) (season_id : Option Nat) : List JobRow :=
  sqlSortDesc (fun r => textKey r.applied_date) σ (jobsMatchingSearch st term season_id)

/-- Method `JobRepository.update_status(job_id, new_status)`: no owner parameter;
sets the status and `last_updated` on the row with this id.  Returns the
rowcount. -/
def JobRepository.update_status (st : DBState) (job_id : Nat)
    (new_status : JobStatus) (now : String) : DBState × Nat :=
  ({ st with jobs := st.jobs.map fun j =>
      if j.id == job_id then
        { j with current_status := new_status.value, last_updated := now }
      else j },
   (st.jobs.filter (·.id == job_id)).length)

/-- The statistics mapping returned by `JobRepository.get_statistics`. -/
structure Stats where
  total_jobs : Nat
  status_breakdown : List (String × Nat)
deriving DecidableEq, Repr

/-- Query `SELECT current_status, COUNT(*) ... WHERE season_id = ? GROUP BY
current_status`, as an association list keyed by the distinct status
strings present. -/
def statusBreakdown (st : DBState) (season_id : Nat) : List (String × Nat) :=
  let sts := (st.jobs.filter (fun j => j.season_id == season_id)).map
    (·.current_status)
  sts.dedup.map fun s => (s, sts.count s)

/-- Method `JobRepository.get_statistics(season_id)`: total count plus the
per-status breakdown (both filter on `season_id` only — no owner). -/
def JobRepository.get_statistics (st : DBState) (season_id : Nat) : Stats :=
  { total_jobs := (st.jobs.filter (fun j => j.season_id == season_id)).length
    status_breakdown := statusBreakdown st season_id }

/-! ## `JobTrackerService` (`services/job_tracker_service.py`)

The service was updated for multi-user support, but `repository.py` was not:
the service passes `user_id` as an extra positional argument to
`SeasonRepository.create`, `SeasonRepository.get_active`,
`SeasonRepository.get_all`, `JobRepository.create`, `JobRepository.get_by_id`
and `JobRepository.get_by_season`, none of which accept one.  CPython binds
arguments before running the callee body, so each such call raises
`TypeError` without executing any SQL.  Calls inside a `try` block are
caught by the `except Exception` handler; calls outside one propagate. -/

/-- Message `str(e)` for the TypeError from `self.season_repo.create(season, user_id)`. -/
def tyErrSeasonCreate : String :=
  "SeasonRepository.create() takes 2 positional arguments but 3 were given"

/-- Message `str(e)` for the TypeError from `self.season_repo.get_active(user_id)`. -/
def tyErrSeasonGetActive : String :=
  "SeasonRepository.get_active() takes 1 positional argument but 2 were given"

/-- Message `str(e)` for the TypeError from `self.job_repo.get_by_id(job_id, user_id)`. -/
def tyErrJobGetById : String :=
  "JobRepository.get_by_id() takes 2 positional arguments but 3 were given"

/-- Method `JobTrackerService.create_season(name, user_id)`.  After validation it
runs `self.season_repo.create(season, user_id)`; the extra positional
argument raises `TypeError` before any SQL executes, and the
`except Exception` handler turns it into a failure tuple.  No state change
ever occurs. -/
def JobTrackerService.create_season (st : DBState) (name : String)
    (user_id : Option Nat) : DBState × (Bool × String × Option Nat) :=
  let v := validate_season_name name
  if !v.1 then (st, (false, v.2, none))
  else (st, (false, "Failed to create season: " ++ tyErrSeasonCreate, none))

/-- Method `JobTrackerService.end_current_season()`: `get_active()` and
`end_current()` are called without arguments, so this operation works.
`now` is the `datetime.now()` written into `end_date`; `nowE` feeds the
entity construction inside `Season.from_dict`. -/
def JobTrackerService.end_current_season (st : DBState) (now : String)
    (nowE : PyDateTime) : DBState × (Bool × String) :=
  match SeasonRepository.get_active st nowE with
  | none => (st, (false, "No active season found"))
  | some active =>
    let (st', affected) := SeasonRepository.end_current st now
    if affected > 0 then
      (st', (true, "Season \x27" ++ active.name ++ "\x27 ended successfully"))
    else (st', (false, "Failed to end season"))

/-- Method `JobTrackerService.get_active_season(user_id)` calls
`self.season_repo.get_active(user_id)`: the extra argument raises
`TypeError`, uncaught (there is no `try` in this method). -/
def JobTrackerService.get_active_season (st : DBState) (user_id : Option Nat) :
    Except PyError (Option Season) :=
  .error (.typeError tyErrSeasonGetActive)

/-- Method `JobTrackerService.add_job(...)`: validates role and company, then calls
`self.season_repo.get_active(user_id)` outside the `try` block — the extra
positional argument raises `TypeError`, which propagates to the caller
whenever both validations pass.  The `return False, "No active season
found. Please create a season first.", None` branch is unreachable. -/
def JobTrackerService.add_job (st : DBState) (role company_name : String)
    (source company_website job_description resume_sent : Option String)
    (status : JobStatus) (applied_date_str : Option String)
    (user_id : Option Nat) :
    DBState × Except PyError (Bool × String × Option Nat) :=
  let vr := validate_role role
  if !vr.1 then (st, .ok (false, "Invalid role: " ++ vr.2, none))
  else
    let vc := validate_company_name company_name
    if !vc.1 then (st, .ok (false, "Invalid company name: " ++ vc.2, none))
    else (st, .error (.typeError tyErrSeasonGetActive))

/-- Method `JobTrackerService.update_job_status(job_id, new_status)`: no owner
parameter exists.  `get_by_id` here is called with one argument, so the
lookup works; `Job.from_dict` errors are caught by the handler. -/
def JobTrackerService.update_job_status (st : DBState) (job_id : Nat)
    (new_status : JobStatus) (now : String) (nowE : PyDateTime) :
    DBState × (Bool × String) :=
  match JobRepository.get_by_id st job_id nowE with
  | .error e => (st, (false, "Error updating job: " ++ e))
  | .ok none => (st, (false, "Job not found"))
  | .ok (some _) =>
    let (st', affected) := JobRepository.update_status st job_id new_status now
    if affected > 0 then
      (st', (true, "Job status updated to \x27" ++ new_status.value ++ "\x27"))
    else (st', (false, "Failed to update job status"))

/-- Method `JobTrackerService.get_job_by_id(job_id, user_id)` calls
`self.job_repo.get_by_id(job_id, user_id)`: the extra argument raises
`TypeError`, uncaught. -/
def JobTrackerService.get_job_by_id (st : DBState) (job_id : Nat)
    (user_id : Option Nat) : Except PyError (Option Job) :=
  .error (.typeError tyErrJobGetById)

/-- Method `JobTrackerService.get_job_statistics(season_id)`: with `season_id is
None` it resolves the single globally active season via `get_active()`
(called without arguments, so it works) and returns `{}` — modelled as
`none` — when there is none. -/
def JobTrackerService.get_job_statistics (st : DBState)
    (season_id : Option Nat) (nowE : PyDateTime) : Option Stats :=
  match season_id with
  | some sid => some (JobRepository.get_statistics st sid)
  | none =>
    match SeasonRepository.get_active st nowE with
    | none => none
    | some active =>
      -- `active.id` is always populated from the row's id
      some (JobRepository.get_statistics st (active.id.getD 0))

/-! ## Users: `database/user_repository.py` and `auth_utils.py`

`bcrypt` is an external library; it is modelled by its functional contract:
`checkpw(candidate, hashpw(password, salt))` succeeds exactly when
`candidate == password`.  A hash value therefore carries the password it
was derived from. -/

/-- Model of a bcrypt salted hash. -/
structure BcryptHash where
  ofPassword : String
deriving DecidableEq, Repr

/-- Function `bcrypt.hashpw(password, gensalt())`. -/
def bcryptHashpw (password : String) : BcryptHash := ⟨password⟩

/-- Function `bcrypt.checkpw(candidate, stored)`. -/
def bcryptCheckpw (candidate : String) (stored : BcryptHash) : Bool :=
  candidate == stored.ofPassword

/-- A row of the `users` table. -/
structure UserRow where
  id : Nat
  username : String
  email : String
  password_hash : BcryptHash
  full_name : String
  created_at : String
  last_login : Option String
  is_active : Bool
deriving DecidableEq, Repr

/-- The `users` table with its next AUTOINCREMENT value. -/
structure UsersState where
  users : List UserRow
  nextUserId : Nat
deriving DecidableEq, Repr

/-- Method `UserRepository.username_exists` (no `is_active` filter). -/
def UserRepository.username_exists (st : UsersState) (username : String) :
    Bool :=
  st.users.any (fun r => r.username == username)

/-- Method `UserRepository.email_exists`. -/
def UserRepository.email_exists (st : UsersState) (email : String) : Bool :=
  st.users.any (fun r => r.email == email)

/-- Query `SELECT * FROM users WHERE username = ? AND is_active = TRUE`. -/
def UserRepository.get_by_username (st : UsersState) (username : String) :
    Option UserRow :=
  st.users.find? (fun r => r.username == username && r.is_active)

/-- Query `SELECT * FROM users WHERE email = ? AND is_active = TRUE`. -/
def UserRepository.get_by_email (st : UsersState) (email : String) :
    Option UserRow :=
  st.users.find? (fun r => r.email == email && r.is_active)

/-- Method `UserRepository.create`: the INSERT hits the UNIQUE constraints on
`username` then `email`; constraint failures are re-raised as `ValueError`
with a friendly message.  On success returns the new state and row. -/
def UserRepository.create (st : UsersState) (username email : String)
    (hash : BcryptHash) (full_name : String) (now : String) :
    Except String (UsersState × UserRow) :=
  if st.users.any (fun r => r.username == username) then
    .error "Username already exists"
  else if st.users.any (fun r => r.email == email) then
    .error "Email already exists"
  else
    let row : UserRow :=
      { id := st.nextUserId
        username := username
        email := email
        password_hash := hash
        full_name := full_name
        created_at := now
        last_login := none
        is_active := true }
    .ok ({ users := st.users ++ [row], nextUserId := st.nextUserId + 1 }, row)

/-- Statement `UPDATE users SET last_login = CURRENT_TIMESTAMP WHERE id = ?`. -/
def UserRepository.update_last_login (st : UsersState) (user_id : Nat)
    (now : String) : UsersState :=
  { st with users := st.users.map fun r =>
      if r.id == user_id then { r with last_login := some now } else r }

/-- Regex `^[a-zA-Z0-9_]+$`. -/
def usernameCharsOk (username : String) : Bool :=
  !username.data.isEmpty && username.data.all (fun c => c.isAlphanum || c == '_')

/-- Regex `^[^@]+@[^@]+\.[^@]+$`: exactly one `@`, nonempty local part, and a dot
strictly inside the domain part (≥ 1 non-`@` character on each side). -/
def emailShapeOk (email : String) : Bool :=
  match splitOnChar '@' email.data with
  | [local_part, domain] =>
    !local_part.isEmpty && ((domain.drop 1).dropLast.contains '.')
  | _ => false

/-- Method `AuthManager.register_user`.  Field validation, duplicate checks with
the raw username/email, then `UserRepository.create` with the normalised
(lower-cased, stripped) values; a `ValueError` from the uniqueness
constraints is caught and returned as a failure. -/
def AuthManager.register_user (st : UsersState)
    (username email password full_name : String) (now : String) :
    UsersState × (Bool × String × Option UserRow) :=
  if pyStrEmpty username || username.length < 3 then
    (st, (false, "Username must be at least 3 characters long", none))
  else if !usernameCharsOk username then
    (st, (false, "Username can only contain letters, numbers, and underscores",
      none))
  else if pyStrEmpty email || !emailShapeOk email then
    (st, (false, "Please enter a valid email address", none))
  else if pyStrEmpty password || password.length < 6 then
    (st, (false, "Password must be at least 6 characters long", none))
  else if pyStrEmpty full_name || (pyStrip full_name).length < 2 then
    (st, (false, "Full name must be at least 2 characters long", none))
  else if UserRepository.username_exists st username then
    (st, (false, "Username already exists", none))
  else if UserRepository.email_exists st email then
    (st, (false, "Email already exists", none))
  else
    match UserRepository.create st (pyStrip (pyLower username))
        (pyStrip (pyLower email)) (bcryptHashpw password)
        (pyStrip full_name) now with
    | .error msg => (st, (false, msg, none))
    | .ok (st', row) => (st', (true, "User registered successfully", some row))

/-- Method `AuthManager.login_user`: lookup by username falling back to email; on a
wrong password it fails before `update_last_login`; on success it stamps
`last_login`.  (The Flask session writes are external side state.) -/
def AuthManager.login_user (st : UsersState) (username password : String)
    (now : String) : UsersState × (Bool × String × Option UserRow) :=
  if pyStrEmpty username || pyStrEmpty password then
    (st, (false, "Username and password are required", none))
  else
    let key := pyStrip (pyLower username)
    let found :=
      match UserRepository.get_by_username st key with
      | some u => some u
      | none => UserRepository.get_by_email st key
    match found with
    | none => (st, (false, "Invalid username/email or password", none))
    | some u =>
      if !bcryptCheckpw password u.password_hash then
        (st, (false, "Invalid username/email or password", none))
      else
        (UserRepository.update_last_login st u.id now,
         (true, "Login successful", some u))

/-! ## Season-operation traces

For the single-active-season invariant we consider arbitrary sequences of
the season mutators: the two service operations, and additionally the raw
repository mutators themselves (a strengthening — every SQL write to
`seasons` in the source goes through one of these). -/

/-- A season operation, carrying the `datetime.now()` values the source
would read. -/
inductive SeasonOp where
  | svcCreate (name : String) (user_id : Option Nat)
  | svcEnd (now : String) (nowE : PyDateTime)
  | repoCreate (name start_date now createdNow : String)
  | repoEnd (now : String)

/-- Final state of one season operation. -/
def applySeasonOp (st : DBState) : SeasonOp → DBState
  | .svcCreate name uid => (JobTrackerService.create_season st name uid).1
  | .svcEnd now nowE => (JobTrackerService.end_current_season st now nowE).1
  | .repoCreate name sd now cn => (SeasonRepository.create st name sd now cn).1
  | .repoEnd now => (SeasonRepository.end_current st now).1

/-- States observable strictly inside one operation: `SeasonRepository.create`
issues two statements, so the instant between them (all seasons closed, new
row not yet inserted) is observable.  Every other operation performs at most
one write. -/
def seasonOpMidStates (st : DBState) : SeasonOp → List DBState
  | .repoCreate _ _ now _ =>
    [{ st with seasons := seasonsDeactivateAll now st.seasons }]
  | _ => []

/-- Every state observable along a trace of season operations, boundaries
and intra-operation instants included. -/
def seasonOpStates : DBState → List SeasonOp → List DBState
  | st, [] => [st]
  | st, op :: ops =>
    st :: (seasonOpMidStates st op ++ seasonOpStates (applySeasonOp st op) ops)

/-- Number of rows with `is_active = 1`. -/
def activeSeasonCount (st : DBState) : Nat :=
  (st.seasons.filter (·.is_active)).length

/-- Number of rows with `is_active = 1` and `user_id = owner`. -/
def ownerActiveSeasonCount (st : DBState) (owner : Nat) : Nat :=
  (st.seasons.filter (fun r => r.is_active && r.user_id == some owner)).length

/-! ## Ordering predicates for the list operations -/

/-- The sequence is ordered most-recent first: along the list each element's
key is `≤` its predecessor's (ISO timestamps compare as TEXT). -/
def sortedByKeyDesc (k : α → List Char) (l : List α) : Prop :=
  List.Pairwise (fun a b => k b ≤ k a) l

/-- The spec's tie rule for job lists: any two entries with identical
applied timestamps appear in id-ascending (insertion) order. -/
def jobTiesAscendingById (l : List JobRow) : Prop :=
  List.Pairwise (fun a b => a.applied_date = b.applied_date → a.id < b.id) l

/-! # Theorems -/

/-! ## Helper lemmas about season operations -/

lemma seasonsDeactivateAll_filter (now : String) (rows : List SeasonRow) :
    (seasonsDeactivateAll now rows).filter (·.is_active) = [] := by
  rw [List.filter_eq_nil_iff]
  intro x hx
  simp only [seasonsDeactivateAll, List.mem_map] at hx
  obtain ⟨r, _, rfl⟩ := hx
  by_cases h : r.is_active <;> simp [h]

lemma activeSeasonCount_deactivateAll (st : DBState) (now : String) :
    activeSeasonCount { st with seasons := seasonsDeactivateAll now st.seasons }
      = 0 := by
  simp [activeSeasonCount, seasonsDeactivateAll_filter]

lemma create_season_fst (st : DBState) (name : String) (uid : Option Nat) :
    (JobTrackerService.create_season st name uid).1 = st := by
  unfold JobTrackerService.create_season
  by_cases h : (validate_season_name name).1 <;> simp [h]

lemma activeSeasonCount_repoCreate (st : DBState) (name sd now cn : String) :
    activeSeasonCount (SeasonRepository.create st name sd now cn).1 = 1 := by
  simp [SeasonRepository.create, activeSeasonCount, List.filter_append,
    seasonsDeactivateAll_filter]

lemma activeSeasonCount_repoEnd (st : DBState) (now : String) :
    activeSeasonCount (SeasonRepository.end_current st now).1 = 0 := by
  simpa [SeasonRepository.end_current] using
    activeSeasonCount_deactivateAll st now

lemma activeSeasonCount_svcEnd (st : DBState) (now : String)
    (nowE : PyDateTime) (h : activeSeasonCount st ≤ 1) :
    activeSeasonCount (JobTrackerService.end_current_season st now nowE).1
      ≤ 1 := by
  unfold JobTrackerService.end_current_season
  cases SeasonRepository.get_active st nowE with
  | none => simpa using h
  | some active =>
    have h0 := activeSeasonCount_repoEnd st now
    by_cases hc : (SeasonRepository.end_current st now).2 > 0 <;>
      simp [hc, h0]

lemma activeSeasonCount_applySeasonOp (st : DBState) (op : SeasonOp)
    (h : activeSeasonCount st ≤ 1) :
    activeSeasonCount (applySeasonOp st op) ≤ 1 := by
  cases op with
  | svcCreate name uid => rw [applySeasonOp, create_season_fst]; exact h
  | svcEnd now nowE => exact activeSeasonCount_svcEnd st now nowE h
  | repoCreate name sd now cn =>
    rw [applySeasonOp, activeSeasonCount_repoCreate]
  | repoEnd now => rw [applySeasonOp, activeSeasonCount_repoEnd]; exact Nat.zero_le 1

lemma ownerActiveSeasonCount_le (st : DBState) (owner : Nat) :
    ownerActiveSeasonCount st owner ≤ activeSeasonCount st := by
  simp only [ownerActiveSeasonCount, activeSeasonCount,
    ← List.countP_eq_length_filter]
  exact List.countP_mono_left fun r _ hr => by
    simp only [Bool.and_eq_true] at hr
    exact hr.1

lemma seasonOpMidStates_active_le (st : DBState) (op : SeasonOp) :
    ∀ s ∈ seasonOpMidStates st op, activeSeasonCount s ≤ 1 := by
  cases op <;> simp [seasonOpMidStates]
  case repoCreate name sd now cn =>
    rw [activeSeasonCount_deactivateAll]
    exact Nat.zero_le 1

/-- invariant over full traces, in terms of the global count -/
lemma seasonOpStates_active_le (s0 : DBState) (ops : List SeasonOp)
    (h : activeSeasonCount s0 ≤ 1) :
    ∀ s ∈ seasonOpStates s0 ops, activeSeasonCount s ≤ 1 := by
  induction ops generalizing s0 with
  | nil =>
    intro s hs
    simp only [seasonOpStates, List.mem_singleton] at hs
    exact hs ▸ h
  | cons op ops ih =>
    intro s hs
    simp only [seasonOpStates, List.mem_cons, List.mem_append] at hs
    rcases hs with rfl | hs | hs
    · exact h
    · exact seasonOpMidStates_active_le s0 op s hs
    · exact ih (applySeasonOp s0 op) (activeSeasonCount_applySeasonOp s0 op h) s hs

/-- Claim C1.  For every owner `O` and every state observable along any
sequence of season operations (the service's `create_season` and
`end_current_season`, and the underlying repository mutators) started from
a state with at most one active season — intra-operation instants of the
two-statement `SeasonRepository.create` included — at most one `seasons`
row has `is_active = 1` and `user_id = O`.  (In the source no owner filter
exists at all, so the global count is bounded by 1 and the per-owner count
follows a fortiori.) -/
theorem c1_at_most_one_active_season (s0 : DBState) (ops : List SeasonOp)
    (h : activeSeasonCount s0 ≤ 1) :
    ∀ s ∈ seasonOpStates s0 ops, ∀ owner : Nat,
      ownerActiveSeasonCount s owner ≤ 1 :=
  fun s hs owner =>
    le_trans (ownerActiveSeasonCount_le s owner)
      (seasonOpStates_active_le s0 ops h s hs)

/-- Witness for C1: a concrete two-operation trace from the empty database,
evaluated at its final state and owner 7. -/
theorem c1_at_most_one_active_season_witness :
    ownerActiveSeasonCount
      (applySeasonOp
        (applySeasonOp ⟨[], [], 1, 1⟩
          (.repoCreate "Fall 2024" "2024-09-01T09:00:00" "2024-09-01T09:00:00"
            "2024-09-01T09:00:00"))
        (.svcEnd "2024-10-01T09:00:00" ⟨"2024-10-01T09:00:00"⟩)) 7 ≤ 1 :=
  c1_at_most_one_active_season ⟨[], [], 1, 1⟩
    [.repoCreate "Fall 2024" "2024-09-01T09:00:00" "2024-09-01T09:00:00"
        "2024-09-01T09:00:00",
     .svcEnd "2024-10-01T09:00:00" ⟨"2024-10-01T09:00:00"⟩]
    (by decide) _ (by decide) 7

/-- Claim C2.  The claim says a valid name leads to success: the old active
season is closed, the new one inserted active, and the new id returned.
The code cannot do this: `create_season` passes `user_id` to
`SeasonRepository.create`, which takes no such parameter, so the call
raises `TypeError` (caught by the `except` handler).  Evaluated here at the
failing input — owner 1 with active season "Summer 2024", valid new name
"Fall 2024" — the service returns a failure tuple and the database is
untouched: "Summer 2024" stays active with no end date and nothing is
inserted. -/
theorem c2_create_season_valid_name_fails :
    JobTrackerService.create_season
      ⟨[⟨1, some 1, "Summer 2024", "2024-06-01T09:00:00", none, true,
          "2024-06-01T09:00:00"⟩], [], 2, 1⟩
      "Fall 2024" (some 1) =
    (⟨[⟨1, some 1, "Summer 2024", "2024-06-01T09:00:00", none, true,
          "2024-06-01T09:00:00"⟩], [], 2, 1⟩,
     (false, "Failed to create season: " ++ tyErrSeasonCreate, none)) := by
  decide

/-- Claim C3.  Owner noninterference fails: no repository method filters by
owner (none even accepts an owner id), so a service mutation performed on
behalf of owner A reads and modifies owner B's rows.  Concretely:
`update_job_status(1, Offer)` — the service method has no owner parameter
at all — succeeds on B's job (row `user_id = 2`), modifying it; and the
same call observed by A on two databases differing only in B's data
returns different results, refuting the two-run formulation. -/
theorem c3_owner_noninterference_fails :
    (JobTrackerService.update_job_status
        ⟨[⟨1, some 2, "B Season", "2024-01-01T09:00:00", none, true,
            "2024-01-01T09:00:00"⟩],
          [⟨1, 1, some 2, "Engineer", "BCorp", none, none, "Applied", none,
            none, "2024-01-02T09:00:00", "2024-01-02T09:00:00"⟩], 2, 2⟩
        1 .OFFER "2024-05-01T09:00:00" ⟨"2024-05-01T09:00:00"⟩).2 ≠
      (JobTrackerService.update_job_status
        ⟨[⟨1, some 2, "B Season", "2024-01-01T09:00:00", none, true,
            "2024-01-01T09:00:00"⟩], [], 2, 2⟩
        1 .OFFER "2024-05-01T09:00:00" ⟨"2024-05-01T09:00:00"⟩).2 ∧
    (JobTrackerService.update_job_status
        ⟨[⟨1, some 2, "B Season", "2024-01-01T09:00:00", none, true,
            "2024-01-01T09:00:00"⟩],
          [⟨1, 1, some 2, "Engineer", "BCorp", none, none, "Applied", none,
            none, "2024-01-02T09:00:00", "2024-01-02T09:00:00"⟩], 2, 2⟩
        1 .OFFER "2024-05-01T09:00:00" ⟨"2024-05-01T09:00:00"⟩).1.jobs.map
      (·.current_status) = ["Offer"] := by
  constructor
  · decide
  · rfl

/-- Claim C4.  The claim says `updateStatus` on a job owned by a different
owner fails with `NotFoundError` and leaves the row unchanged.  The code
has no owner check (the service method does not even take an owner id):
evaluated at a job row with `user_id = 2` while the caller is owner 1, the
update succeeds, sets the status to `Offer` and refreshes `last_updated`. -/
theorem c4_update_status_ignores_owner :
    JobTrackerService.update_job_status
      ⟨[⟨1, some 2, "B Season", "2024-01-01T09:00:00", none, true,
          "2024-01-01T09:00:00"⟩],
        [⟨1, 1, some 2, "Engineer", "BCorp", none, none, "Applied", none,
          none, "2024-01-02T09:00:00", "2024-01-02T09:00:00"⟩], 2, 2⟩
      1 .OFFER "2024-05-01T09:00:00" ⟨"2024-05-01T09:00:00"⟩ =
    (⟨[⟨1, some 2, "B Season", "2024-01-01T09:00:00", none, true,
          "2024-01-01T09:00:00"⟩],
        [⟨1, 1, some 2, "Engineer", "BCorp", none, none, "Offer", none,
          none, "2024-01-02T09:00:00", "2024-05-01T09:00:00"⟩], 2, 2⟩,
     (true, "Job status updated to \x27Offer\x27")) := by
  decide

/-- Claim C5.  The claim says `addJob` with no active season returns a
`NotFoundError`-kind failure tuple mentioning the missing season.  In the
code, after the role/company validations pass, `add_job` calls
`self.season_repo.get_active(user_id)` outside its `try` block;
`get_active` takes no argument, so the call raises `TypeError`, which
propagates instead of the intended "No active season found..." return.
Nothing is inserted (the state is returned unchanged), but the result is a
raised exception, not the claimed failure result. -/
theorem c5_add_job_without_active_season_raises :
    JobTrackerService.add_job ⟨[], [], 1, 1⟩ "Engineer" "Acme"
      none none none none .APPLIED none (some 1) =
    (⟨[], [], 1, 1⟩, .error (.typeError tyErrSeasonGetActive)) := by
  rfl

/-- Claim C6.  (a) Registering with a username that already exists — with all
field validations passing — fails with the `ConflictError`-kind result
"Username already exists" and returns the store unchanged (in particular
the existing user's row).  (b) Logging in with a username that resolves to
a stored user whose password check fails returns the `AuthError`-kind
result "Invalid username/email or password" and leaves the store — in
particular that user's `last_login` — unchanged. -/
theorem c6_duplicate_register_and_wrong_password_login :
    (∀ (st : UsersState) (username email password full_name now : String),
      pyStrEmpty username = false → ¬username.length < 3 →
      usernameCharsOk username = true →
      pyStrEmpty email = false → emailShapeOk email = true →
      pyStrEmpty password = false → ¬password.length < 6 →
      pyStrEmpty full_name = false → ¬(pyStrip full_name).length < 2 →
      UserRepository.username_exists st username = true →
      AuthManager.register_user st username email password full_name now =
        (st, (false, "Username already exists", none))) ∧
    (∀ (st : UsersState) (username password now : String) (u : UserRow),
      pyStrEmpty username = false → pyStrEmpty password = false →
      UserRepository.get_by_username st (pyStrip (pyLower username)) = some u →
      bcryptCheckpw password u.password_hash = false →
      AuthManager.login_user st username password now =
        (st, (false, "Invalid username/email or password", none))) := by
  constructor
  · intro st username email password full_name now h1 h2 h3 h4 h5 h6 h7 h8 h9 h10
    simp [AuthManager.register_user, h1, h2, h3, h4, h5, h6, h7, h8, h9, h10]
  · intro st username password now u h1 h2 hfind hpw
    simp [AuthManager.login_user, h1, h2, hfind, hpw]

/-- Witness for C6 at a concrete store: user "bob" already registered with
password "hunter2"; a duplicate registration of "bob" and a login with the
wrong password both fail and leave the store unchanged. -/
theorem c6_duplicate_register_and_wrong_password_login_witness :
    AuthManager.register_user
      ⟨[⟨1, "bob", "bob@mail.co", ⟨"hunter2"⟩, "Bob Builder",
          "2024-01-01T09:00:00", none, true⟩], 2⟩
      "bob" "new@mail.co" "secret1" "New Person" "2024-02-02T09:00:00" =
      (⟨[⟨1, "bob", "bob@mail.co", ⟨"hunter2"⟩, "Bob Builder",
          "2024-01-01T09:00:00", none, true⟩], 2⟩,
       (false, "Username already exists", none)) ∧
    AuthManager.login_user
      ⟨[⟨1, "bob", "bob@mail.co", ⟨"hunter2"⟩, "Bob Builder",
          "2024-01-01T09:00:00", none, true⟩], 2⟩
      "bob" "wrongpw" "2024-02-02T09:00:00" =
      (⟨[⟨1, "bob", "bob@mail.co", ⟨"hunter2"⟩, "Bob Builder",
          "2024-01-01T09:00:00", none, true⟩], 2⟩,
       (false, "Invalid username/email or password", none)) :=
  ⟨c6_duplicate_register_and_wrong_password_login.1 _ "bob" "new@mail.co"
      "secret1" "New Person" "2024-02-02T09:00:00" (by decide) (by decide)
      (by decide) (by decide) (by decide) (by decide) (by decide) (by decide)
      (by decide) (by decide),
   c6_duplicate_register_and_wrong_password_login.2 _ "bob" "wrongpw"
      "2024-02-02T09:00:00"
      ⟨1, "bob", "bob@mail.co", ⟨"hunter2"⟩, "Bob Builder",
        "2024-01-01T09:00:00", none, true⟩
      (by decide) (by decide) (by decide) (by decide)⟩

/-! ## Serialization round-trip -/

lemma JobStatus.from_string_value (st : JobStatus) :
    JobStatus.from_string st.value = .ok st := by
  cases st <;> rfl

/-- Claim C7.  Round-trip: for every `Job` and every `Season` produced by the
dataclass constructors (arbitrary field values, `__post_init__` defaulting
applied), `from_dict (to_dict x)` reconstructs `x` field-for-field —
including the status enumeration member and the active flag.  The
hypotheses state that the serialized timestamps are genuine `isoformat`
output (non-empty), which is what makes the Python truthiness test
`if data.get(...)` in `from_dict` take the parsing branch. -/
theorem c7_to_dict_from_dict_roundtrip :
    (∀ (id season_id : Option Nat) (role company_name : String)
      (company_website source : Option String) (current_status : JobStatus)
      (job_description resume_sent : Option String)
      (applied_date last_updated : Option PyDateTime)
      (season_name : Option String) (now now2 : PyDateTime),
      pyStrEmpty now.iso = false →
      (∀ d ∈ applied_date, pyStrEmpty d.iso = false) →
      (∀ d ∈ last_updated, pyStrEmpty d.iso = false) →
      Job.from_dict
        (Job.to_dict (mkJob id season_id role company_name company_website
          source current_status job_description resume_sent applied_date
          last_updated season_name now)) now2 =
        .ok (mkJob id season_id role company_name company_website source
          current_status job_description resume_sent applied_date
          last_updated season_name now)) ∧
    (∀ (id : Option Nat) (name : String)
      (start_date end_date : Option PyDateTime) (is_active : Bool)
      (created_at : Option PyDateTime) (now now2 : PyDateTime),
      pyStrEmpty now.iso = false →
      (∀ d ∈ start_date, pyStrEmpty d.iso = false) →
      (∀ d ∈ end_date, pyStrEmpty d.iso = false) →
      (∀ d ∈ created_at, pyStrEmpty d.iso = false) →
      Season.from_dict
        (Season.to_dict (mkSeason id name start_date end_date is_active
          created_at now)) now2 =
        mkSeason id name start_date end_date is_active created_at now) := by
  constructor
  · intro id season_id role company_name company_website source current_status
      job_description resume_sent applied_date last_updated season_name now
      now2 hnow hap hlu
    have hasome : ∀ d : PyDateTime, pyStrEmpty d.iso = false →
        parseOptDate (some d.iso) = some d := by
      intro d hd
      simp [parseOptDate, hd, PyDateTime.fromisoformat]
    cases applied_date with
    | none =>
      cases last_updated with
      | none =>
        simp [Job.from_dict, Job.to_dict, mkJob, PyDateTime.isoformat,
          JobStatus.from_string_value, hasome _ hnow, Bind.bind, Except.bind]
      | some lu =>
        simp [Job.from_dict, Job.to_dict, mkJob, PyDateTime.isoformat,
          JobStatus.from_string_value, hasome _ hnow,
          hasome _ (hlu lu (by simp)), Bind.bind, Except.bind]
    | some ap =>
      cases last_updated with
      | none =>
        simp [Job.from_dict, Job.to_dict, mkJob, PyDateTime.isoformat,
          JobStatus.from_string_value, hasome _ hnow,
          hasome _ (hap ap (by simp)), Bind.bind, Except.bind]
      | some lu =>
        simp [Job.from_dict, Job.to_dict, mkJob, PyDateTime.isoformat,
          JobStatus.from_string_value, hasome _ (hap ap (by simp)),
          hasome _ (hlu lu (by simp)), Bind.bind, Except.bind]
  · intro id name start_date end_date is_active created_at now now2 hnow hsd
      hed hca
    have hasome : ∀ d : PyDateTime, pyStrEmpty d.iso = false →
        parseOptDate (some d.iso) = some d := by
      intro d hd
      simp [parseOptDate, hd, PyDateTime.fromisoformat]
    have hend : parseOptDate (Option.map PyDateTime.isoformat end_date)
        = end_date := by
      cases end_date with
      | none => rfl
      | some ed => simpa [PyDateTime.isoformat] using hasome _ (hed ed (by simp))
    cases start_date with
    | none =>
      cases created_at with
      | none =>
        cases is_active <;>
          simp [Season.from_dict, Season.to_dict, mkSeason,
            PyDateTime.isoformat, hasome _ hnow, hend]
      | some ca =>
        cases is_active <;>
          simp [Season.from_dict, Season.to_dict, mkSeason,
            PyDateTime.isoformat, hasome _ hnow, hasome _ (hca ca (by simp)),
            hend]
    | some sd =>
      cases created_at with
      | none =>
        cases is_active <;>
          simp [Season.from_dict, Season.to_dict, mkSeason,
            PyDateTime.isoformat, hasome _ hnow, hasome _ (hsd sd (by simp)),
            hend]
      | some ca =>
        cases is_active <;>
          simp [Season.from_dict, Season.to_dict, mkSeason,
            PyDateTime.isoformat, hasome _ (hsd sd (by simp)),
            hasome _ (hca ca (by simp)), hend]

/-- Witness for C7: round-trip evaluated at one concrete job and one
concrete season. -/
theorem c7_to_dict_from_dict_roundtrip_witness :
    Job.from_dict
      (Job.to_dict (mkJob (some 3) (some 1) "Engineer" "Acme" none
        (some "referral") .OFFER none none (some ⟨"2024-01-02T09:00:00"⟩)
        none (some "Fall 2024") ⟨"2024-01-05T09:00:00"⟩))
      ⟨"2025-01-01T00:00:00"⟩ =
      .ok (mkJob (some 3) (some 1) "Engineer" "Acme" none (some "referral")
        .OFFER none none (some ⟨"2024-01-02T09:00:00"⟩) none
        (some "Fall 2024") ⟨"2024-01-05T09:00:00"⟩) ∧
    Season.from_dict
      (Season.to_dict (mkSeason (some 1) "Fall 2024" none
        (some ⟨"2024-02-01T09:00:00"⟩) true none ⟨"2024-01-05T09:00:00"⟩))
      ⟨"2025-01-01T00:00:00"⟩ =
      mkSeason (some 1) "Fall 2024" none (some ⟨"2024-02-01T09:00:00"⟩) true
        none ⟨"2024-01-05T09:00:00"⟩ :=
  ⟨c7_to_dict_from_dict_roundtrip.1 (some 3) (some 1) "Engineer" "Acme" none
      (some "referral") .OFFER none none (some ⟨"2024-01-02T09:00:00"⟩) none
      (some "Fall 2024") ⟨"2024-01-05T09:00:00"⟩ ⟨"2025-01-01T00:00:00"⟩
      (by decide) (by decide) (by decide),
   c7_to_dict_from_dict_roundtrip.2 (some 1) "Fall 2024" none
      (some ⟨"2024-02-01T09:00:00"⟩) true none ⟨"2024-01-05T09:00:00"⟩
      ⟨"2025-01-01T00:00:00"⟩ (by decide) (by decide) (by decide) (by decide)⟩

/-! ## Statistics -/

lemma lookup_pair_map (f : String → Nat) :
    ∀ (l : List String) (t : String), t ∈ l →
      (l.map (fun s => (s, f s))).lookup t = some (f t) := by
  intro l
  induction l with
  | nil => intro t ht; cases ht
  | cons s ss ih =>
    intro t ht
    by_cases h : t = s
    · subst h; simp [List.lookup]
    · have hm : t ∈ ss := by
        rcases List.mem_cons.mp ht with h' | h'
        · exact absurd h' h
        · exact h'
      have hbeq : (t == s) = false := beq_eq_false_iff_ne.mpr h
      simpa [List.lookup, hbeq] using ih t hm

lemma statusBreakdown_lookup (st : DBState) (sid : Nat) (s : String)
    (h : 0 < ((st.jobs.filter (fun j => j.season_id == sid)).map
      (·.current_status)).count s) :
    (statusBreakdown st sid).lookup s =
      some (((st.jobs.filter (fun j => j.season_id == sid)).map
        (·.current_status)).count s) := by
  unfold statusBreakdown
  exact lookup_pair_map _ _ s (List.mem_dedup.mpr (List.count_pos_iff.mp h))

lemma get_statistics_empty (st : DBState) (sid : Nat)
    (h : st.jobs.filter (fun j => j.season_id == sid) = []) :
    JobRepository.get_statistics st sid = ⟨0, []⟩ := by
  simp [JobRepository.get_statistics, statusBreakdown, h]

/-- Claim C8.  `get_statistics` for a season whose jobs are exactly 3 with
statuses two `Applied` and one `Offer` yields total 3 with breakdown
`Applied ↦ 2`, `Offer ↦ 1`; for a season with no jobs it yields total 0 and
an empty breakdown rather than an error; and the same zero result is
produced by the service when `season_id` is omitted and resolved through
the active season (the lookup is global — the single active season — since
`get_active` takes no owner). -/
theorem c8_statistics :
    (∀ (st : DBState) (sid : Nat),
      ((st.jobs.filter (fun j => j.season_id == sid)).map
        (·.current_status)).count "Applied" = 2 →
      ((st.jobs.filter (fun j => j.season_id == sid)).map
        (·.current_status)).count "Offer" = 1 →
      (st.jobs.filter (fun j => j.season_id == sid)).length = 3 →
      (JobRepository.get_statistics st sid).total_jobs = 3 ∧
      (JobRepository.get_statistics st sid).status_breakdown.lookup "Applied"
        = some 2 ∧
      (JobRepository.get_statistics st sid).status_breakdown.lookup "Offer"
        = some 1) ∧
    (∀ (st : DBState) (sid : Nat),
      st.jobs.filter (fun j => j.season_id == sid) = [] →
      JobRepository.get_statistics st sid = ⟨0, []⟩) ∧
    (∀ (st : DBState) (nowE : PyDateTime) (r : SeasonRow),
      SeasonRepository.get_active_row st = some r →
      st.jobs.filter (fun j => j.season_id == r.id) = [] →
      JobTrackerService.get_job_statistics st none nowE = some ⟨0, []⟩) := by
  refine ⟨?_, ?_, ?_⟩
  · intro st sid hA hO hT
    refine ⟨hT ▸ rfl, ?_, ?_⟩
    · rw [show (JobRepository.get_statistics st sid).status_breakdown
          = statusBreakdown st sid from rfl,
        statusBreakdown_lookup st sid "Applied" (by rw [hA]; decide), hA]
    · rw [show (JobRepository.get_statistics st sid).status_breakdown
          = statusBreakdown st sid from rfl,
        statusBreakdown_lookup st sid "Offer" (by rw [hO]; decide), hO]
  · exact get_statistics_empty
  · intro st nowE r hrow hempty
    have hid : (Season.from_dict (seasonRowToDict r) nowE).id = some r.id := by
      simp [Season.from_dict, mkSeason, seasonRowToDict]
    simp [JobTrackerService.get_job_statistics, SeasonRepository.get_active,
      hrow, hid, get_statistics_empty st r.id hempty]

/-- Witness for C8: the three conjuncts applied to a concrete database —
season 1 holds jobs with statuses Applied, Applied, Offer; season 2 is
empty; and a database whose active season 5 has no jobs. -/
theorem c8_statistics_witness :
    (JobRepository.get_statistics
      ⟨[⟨1, some 1, "Fall 2024", "2024-09-01T09:00:00", none, true,
          "2024-09-01T09:00:00"⟩],
        [⟨1, 1, some 1, "Engineer", "Acme", none, none, "Applied", none, none,
          "2024-09-02T09:00:00", "2024-09-02T09:00:00"⟩,
         ⟨2, 1, some 1, "Analyst", "BCorp", none, none, "Applied", none, none,
          "2024-09-03T09:00:00", "2024-09-03T09:00:00"⟩,
         ⟨3, 1, some 1, "Manager", "CCorp", none, none, "Offer", none, none,
          "2024-09-04T09:00:00", "2024-09-04T09:00:00"⟩], 2, 4⟩
      1).total_jobs = 3 ∧
    (JobRepository.get_statistics
      ⟨[⟨1, some 1, "Fall 2024", "2024-09-01T09:00:00", none, true,
          "2024-09-01T09:00:00"⟩],
        [⟨1, 1, some 1, "Engineer", "Acme", none, none, "Applied", none, none,
          "2024-09-02T09:00:00", "2024-09-02T09:00:00"⟩,
         ⟨2, 1, some 1, "Analyst", "BCorp", none, none, "Applied", none, none,
          "2024-09-03T09:00:00", "2024-09-03T09:00:00"⟩,
         ⟨3, 1, some 1, "Manager", "CCorp", none, none, "Offer", none, none,
          "2024-09-04T09:00:00", "2024-09-04T09:00:00"⟩], 2, 4⟩
      1).status_breakdown.lookup "Applied" = some 2 ∧
    JobRepository.get_statistics
      ⟨[⟨1, some 1, "Fall 2024", "2024-09-01T09:00:00", none, true,
          "2024-09-01T09:00:00"⟩],
        [⟨1, 1, some 1, "Engineer", "Acme", none, none, "Applied", none, none,
          "2024-09-02T09:00:00", "2024-09-02T09:00:00"⟩], 2, 2⟩ 2 = ⟨0, []⟩ ∧
    JobTrackerService.get_job_statistics
      ⟨[⟨5, some 1, "Spring 2025", "2025-03-01T09:00:00", none, true,
          "2025-03-01T09:00:00"⟩], [], 6, 1⟩ none ⟨"2025-03-02T09:00:00"⟩
      = some ⟨0, []⟩ :=
  ⟨(c8_statistics.1 _ 1 (by decide) (by decide) (by decide)).1,
   (c8_statistics.1 _ 1 (by decide) (by decide) (by decide)).2.1,
   c8_statistics.2.1 _ 2 (by decide),
   c8_statistics.2.2 _ ⟨"2025-03-02T09:00:00"⟩
     ⟨5, some 1, "Spring 2025", "2025-03-01T09:00:00", none, true,
       "2025-03-01T09:00:00"⟩ (by decide) (by decide)⟩

/-! ## Ordering of list operations -/

lemma sqlSortDesc_sorted (k : α → List Char) (σ : α → Nat) (l : List α) :
    sortedByKeyDesc k (sqlSortDesc k σ l) := by
  have h := List.sorted_insertionSort (sqlDescRel k σ) l
  exact h.imp fun hab => by
    rcases hab with h' | ⟨h', _⟩
    · exact le_of_lt h'
    · exact le_of_eq h'

lemma sqlSortDesc_perm (k : α → List Char) (σ : α → Nat) (l : List α) :
    (sqlSortDesc k σ l).Perm l :=
  List.perm_insertionSort _ l

/-- Claim C9, counterexample.  The claim also asserts that entries with
identical timestamps appear in id-ascending order.  The queries name no
secondary sort key, so a store resolving the tie the other way is
conforming: with tie-break index `10 - id`, two jobs of season 1 sharing
one `applied_date` come back as ids `[2, 1]`, violating the tie rule. -/
theorem c9_ties_not_id_ascending :
    ¬ jobTiesAscendingById
      (JobRepository.get_by_season_rows (fun r => 10 - r.id)
        ⟨[⟨1, some 1, "Fall 2024", "2024-09-01T09:00:00", none, true,
            "2024-09-01T09:00:00"⟩],
          [⟨1, 1, some 1, "Engineer", "Acme", none, none, "Applied", none,
            none, "2024-09-02T09:00:00", "2024-09-02T09:00:00"⟩,
           ⟨2, 1, some 1, "Analyst", "BCorp", none, none, "Applied", none,
            none, "2024-09-02T09:00:00", "2024-09-02T09:00:00"⟩], 2, 3⟩
        1) := by
  unfold jobTiesAscendingById
  decide

/-- Claim C9, amended.  Every list operation returns its matching rows
ordered by the `ORDER BY` key descending (most recent first): jobs by
season, jobs by status, search results (each keyed by `applied_date`), and
seasons (keyed by `created_at`); each result is a permutation of exactly
the matching rows.  The order of entries with identical keys is the
store's tie-break order `σ`, which the queries do not constrain — it need
not be id-ascending. -/
theorem c9_list_operations_sorted_desc (σj : JobRow → Nat)
    (σs : SeasonRow → Nat) (st : DBState) (sid : Nat) (sid? : Option Nat)
    (status : JobStatus) (term : String) :
    (sortedByKeyDesc (fun r => textKey r.applied_date)
        (JobRepository.get_by_season_rows σj st sid) ∧
      (JobRepository.get_by_season_rows σj st sid).Perm
        (jobsOfSeason st sid)) ∧
    (sortedByKeyDesc (fun r => textKey r.applied_date)
        (JobRepository.get_by_status_rows σj st status sid?) ∧
      (JobRepository.get_by_status_rows σj st status sid?).Perm
        (jobsOfStatus st status sid?)) ∧
    (sortedByKeyDesc (fun r => textKey r.applied_date)
        (JobRepository.search_rows σj st term sid?) ∧
      (JobRepository.search_rows σj st term sid?).Perm
        (jobsMatchingSearch st term sid?)) ∧
    (sortedByKeyDesc (fun r => textKey r.created_at)
        (SeasonRepository.get_all_rows σs st) ∧
      (SeasonRepository.get_all_rows σs st).Perm st.seasons) :=
  ⟨⟨sqlSortDesc_sorted _ σj _, sqlSortDesc_perm _ σj _⟩,
   ⟨sqlSortDesc_sorted _ σj _, sqlSortDesc_perm _ σj _⟩,
   ⟨sqlSortDesc_sorted _ σj _, sqlSortDesc_perm _ σj _⟩,
   ⟨sqlSortDesc_sorted _ σs _, sqlSortDesc_perm _ σs _⟩⟩

/-! ## Status parsing -/

lemma JobStatus.from_string_eq_error (s : String)
    (h : ∀ st : JobStatus, st.value ≠ s) :
    JobStatus.from_string s = .error ("Invalid job status: " ++ s) := by
  unfold JobStatus.from_string
  rw [List.find?_eq_none.mpr]
  intro st _
  simpa using h st

/-- Claim C10.  `JobStatus.from_string` returns exactly the member whose
`.value` equals the input (first conjunct, an equivalence), and raises
`ValueError` for every other string (second conjunct); consequently
`Job.from_dict` on a row whose `current_status` is present but not one of
the nine exact strings raises rather than defaulting (third conjunct), and
so does the row-reconstructing read `JobRepository.get_by_id` (fourth
conjunct). -/
theorem c10_from_string_exact_and_raises :
    (∀ (s : String) (st : JobStatus),
      JobStatus.from_string s = .ok st ↔ st.value = s) ∧
    (∀ s : String, (∀ st : JobStatus, st.value ≠ s) →
      JobStatus.from_string s = .error ("Invalid job status: " ++ s)) ∧
    (∀ (d : JobDict) (s : String) (now : PyDateTime),
      d.current_status = some s → (∀ st : JobStatus, st.value ≠ s) →
      Job.from_dict d now = .error ("Invalid job status: " ++ s)) ∧
    (∀ (st : DBState) (job_id : Nat) (now : PyDateTime) (j : JobRow)
      (sname : String),
      jobGetByIdRow st job_id = some (j, sname) →
      (∀ m : JobStatus, m.value ≠ j.current_status) →
      JobRepository.get_by_id st job_id now =
        .error ("Invalid job status: " ++ j.current_status)) := by
  refine ⟨?_, JobStatus.from_string_eq_error, ?_, ?_⟩
  · intro s st
    constructor
    · intro h
      unfold JobStatus.from_string at h
      cases hfind : JobStatus.members.find? (fun m => m.value == s) with
      | none => rw [hfind] at h; cases h
      | some m =>
        rw [hfind] at h
        cases h
        have hp := List.find?_some hfind
        exact eq_of_beq hp
    · intro h
      subst h
      exact JobStatus.from_string_value st
  · intro d s now hd h
    simp [Job.from_dict, hd, JobStatus.from_string_eq_error s h, Bind.bind,
      Except.bind]
  · intro st job_id now j sname hrow h
    simp [JobRepository.get_by_id, hrow, Job.from_dict, jobRowToDict,
      JobStatus.from_string_eq_error _ h, Bind.bind, Except.bind,
      Except.map]

/-- Witness for C10: the conjuncts applied to the unknown status string
"Ghosted" — `from_string` raises, `Job.from_dict` on a row dict carrying it
raises, and `get_by_id` on a database whose job row carries it raises. -/
theorem c10_from_string_exact_and_raises_witness :
    JobStatus.from_string "Offer" = .ok .OFFER ∧
    JobStatus.from_string "Ghosted" = .error "Invalid job status: Ghosted" ∧
    Job.from_dict
      ⟨some 1, some 1, some "Engineer", some "Acme", none, none,
        some "Ghosted", none, none, some "2024-09-02T09:00:00",
        some "2024-09-02T09:00:00", some "Fall 2024"⟩
      ⟨"2024-09-05T09:00:00"⟩ = .error "Invalid job status: Ghosted" ∧
    JobRepository.get_by_id
      ⟨[⟨1, some 1, "Fall 2024", "2024-09-01T09:00:00", none, true,
          "2024-09-01T09:00:00"⟩],
        [⟨1, 1, some 1, "Engineer", "Acme", none, none, "Ghosted", none,
          none, "2024-09-02T09:00:00", "2024-09-02T09:00:00"⟩], 2, 2⟩
      1 ⟨"2024-09-05T09:00:00"⟩ = .error "Invalid job status: Ghosted" :=
  ⟨(c10_from_string_exact_and_raises.1 "Offer" .OFFER).mpr rfl,
   c10_from_string_exact_and_raises.2.1 "Ghosted"
     (by intro st; cases st <;> decide),
   c10_from_string_exact_and_raises.2.2.1 _ "Ghosted" ⟨"2024-09-05T09:00:00"⟩
     rfl (by intro st; cases st <;> decide),
   c10_from_string_exact_and_raises.2.2.2 _ 1 ⟨"2024-09-05T09:00:00"⟩
     ⟨1, 1, some 1, "Engineer", "Acme", none, none, "Ghosted", none, none,
       "2024-09-02T09:00:00", "2024-09-02T09:00:00"⟩ "Fall 2024"
     (by decide) (by intro m; cases m <;> decide)⟩

end JobTrackerRepo
